import Mathlib

/-!
Verification of the KPI deck-generation app (src/app.py).

The app is a single-page form that queues KPI cards, loads tabular files,
and on a button press builds a one- or two-slide presentation.  The
embedding below mirrors the generation handler (lines 215-317 of app.py),
the slide builder `build_slide` (lines 229-287), and the table loader
`load_table` (lines 27-41).

Fallible library calls (pandas parsing, python-pptx chart construction,
PIL image decoding) are modelled by their outcome: `Except String Table`
for a parse, `Option String` for a call that either succeeds (`none`) or
raises with a message (`some e`).  Everything the handler itself computes
(slide count decision, positional slicing, per-slide truncation, warning
messages, speaker-note text) is translated directly from the source.
-/

namespace DeckGen

/-- A queued KPI card: `{"headline": ..., "value": ..., "note": ...}`
(app.py line 198). -/
structure Card where
  headline : String
  value : String
  note : String
deriving DecidableEq, Repr

/-- A parsed table: named columns over rows of cell values
(a pandas DataFrame, abstracted to its grid of cells). -/
structure Table where
  columns : List String
  rows : List (List String)
deriving DecidableEq, Repr

/-- An uploaded tabular file.  The name drives the extension dispatch in
`load_table`; the three `Except` fields are the outcomes of the library
parses (`pd.read_csv`, `pd.read_excel`, `json.load`+`pd.json_normalize`),
which either return a table or raise with a message. -/
structure DataFile where
  name : String
  csvResult : Except String Table
  excelResult : Except String Table
  jsonResult : Except String Table

/-- An uploaded screenshot.  `decode` is the outcome of
`Image.open(img).convert("RGB")` / `add_screenshot` (app.py lines 274-275):
`none` means success, `some e` means the call raised with message `e`. -/
structure Screenshot where
  name : String
  decode : Option String
deriving DecidableEq, Repr

/-- The chart configuration assembled at app.py line 301 when a table and
two columns are mapped.  `addResult` is the outcome of the `add_chart`
library call (app.py lines 261-265): `none` means the chart was added,
`some e` means the call raised with message `e`. -/
structure ChartCfg where
  x : String
  y : String
  ctype : String
  series : String
  addResult : Option String
deriving DecidableEq, Repr

/-- The sidebar options read by the generation handler (app.py lines
146-153).  `enableAutoCrop` is the auto-crop checkbox (line 153). -/
structure Options where
  titleText : String
  customer : String
  dateRange : String
  purpose : String
  accentColor : String
  includeSpeakerNotes : Bool
  enableAutoCrop : Bool
deriving DecidableEq, Repr

/-- Observable content of one generated slide: title and subtitle text,
the card visuals actually rendered (the `add_kpi_card` loop), whether a
chart shape was added, the names of the images actually embedded, and the
speaker-notes text when enabled. -/
structure Slide where
  title : String
  subtitle : String
  accent : String
  cards : List Card
  chart : Option Unit
  images : List String
  notes : Option String
deriving DecidableEq, Repr

/-- Result of one press of the generate button: the slides of the saved
presentation, the `st.warning` messages emitted along the way, and whether
the success banner / download button was reached (it always is). -/
structure GenResult where
  slides : List Slide
  warnings : List String
  success : Bool
deriving DecidableEq, Repr

/-- `file.name.lower()` (app.py line 28), on the character list of the
name. -/
def lowerChars (s : String) : List Char :=
  s.data.map Char.toLower

/-- Python's `name.endswith(suffix)` on character lists. -/
def endsWithChars (suffix name : List Char) : Bool :=
  List.isSuffixOf suffix name

/-- `load_table` (app.py lines 27-41): dispatch on the lower-cased file
name's extension; a parse that raises is caught and turned into a
"Could not read" warning with no table; an unmatched extension falls
through to the "Unsupported table file" warning with no table.
Returns the optional table together with the warnings emitted. -/
def load_table (f : DataFile) : Option Table × List String :=
  let name := lowerChars f.name
  if endsWithChars ".csv".data name then
    match f.csvResult with
    | .ok t => (some t, [])
    | .error e => (none, ["Could not read " ++ f.name ++ ": " ++ e])
  else if endsWithChars ".xlsx".data name || endsWithChars ".xls".data name then
    match f.excelResult with
    | .ok t => (some t, [])
    | .error e => (none, ["Could not read " ++ f.name ++ ": " ++ e])
  else if endsWithChars ".json".data name then
    match f.jsonResult with
    | .ok t => (some t, [])
    | .error e => (none, ["Could not read " ++ f.name ++ ": " ++ e])
  else
    (none, ["Unsupported table file: " ++ f.name])

/-- The table-loading loop (app.py lines 160-165): each uploaded file is
loaded independently and appended to `tables` when the load succeeds. -/
def loadTables : List DataFile → List Table × List String
  | [] => ([], [])
  | f :: fs =>
    let r := load_table f
    let rest := loadTables fs
    (match r.1 with
     | some t => t :: rest.1
     | none => rest.1,
     r.2 ++ rest.2)

/-- `use_two_slides` (app.py line 227): two slides are used when the
queued cards plus uploaded images exceed 4 and the slider allows 2. -/
def use_two_slides (totalCards totalImgs maxSlides : Nat) : Bool :=
  decide (totalCards + totalImgs > 4) && decide (maxSlides ≥ 2)

/-- `half_cards` (app.py line 293): the cut point for the card split. -/
def half_cards (totalCards : Nat) : Nat :=
  max 4 ((totalCards + 1) / 2)

/-- `half_imgs` (app.py line 295): the cut point for the image split. -/
def half_imgs (totalImgs : Nat) : Nat :=
  max 1 ((totalImgs + 1) / 2)

/-- The card split of app.py line 294:
`cards1, cards2 = cards[:half_cards], cards[half_cards:]`. -/
def split_cards (cards : List Card) : List Card × List Card :=
  (cards.take (half_cards cards.length), cards.drop (half_cards cards.length))

/-- The image split of app.py line 296:
`imgs1, imgs2 = imgs1[:half_imgs], imgs1[half_imgs:]`. -/
def split_imgs (imgs : List Screenshot) : List Screenshot × List Screenshot :=
  (imgs.take (half_imgs imgs.length), imgs.drop (half_imgs imgs.length))

/-- `build_slide` (app.py lines 229-287): renders the title and subtitle,
at most the first four cards of `cardsSubset` into the 2x2 grid, the
optional chart (warning and skip on failure), at most the first image of
`imgsSubset` (warning and skip on failure), and the speaker notes when
enabled.  Returns the slide together with the warnings emitted. -/
def build_slide (opts : Options) (titleStr : String) (cardsSubset : List Card)
    (imgsSubset : List Screenshot) (chartCfg : Option ChartCfg) :
    Slide × List String :=
  let subtitleParts :=
    (if opts.customer ≠ "" then ["Customer: " ++ opts.customer] else []) ++
    (if opts.dateRange ≠ "" then ["Range: " ++ opts.dateRange] else []) ++
    (if opts.purpose ≠ "" then ["Purpose: " ++ opts.purpose] else [])
  let subtitle := String.intercalate " • " subtitleParts
  let renderedCards := cardsSubset.take 4
  let chartOut : Option Unit × List String :=
    match chartCfg with
    | none => (none, [])
    | some cfg =>
      match cfg.addResult with
      | none => (some (), [])
      | some e => (none, ["Chart could not be added: " ++ e])
  let shownImgs := imgsSubset.take 1
  let placed := shownImgs.filterMap fun s =>
    match s.decode with
    | none => some s.name
    | some _ => none
  let imgWarns := shownImgs.filterMap fun s =>
    (s.decode).map fun e => "Could not embed " ++ s.name ++ ": " ++ e
  let notes :=
    if opts.includeSpeakerNotes then
      let cardLines := renderedCards.map fun c =>
        "- " ++ c.headline ++ ": " ++ c.value ++ " — " ++ c.note
      let chartLines :=
        match chartCfg with
        | some cfg => ["- Chart: " ++ cfg.ctype ++ " of " ++ cfg.y ++ " by " ++ cfg.x]
        | none => []
      some (String.intercalate "\n" (cardLines ++ chartLines))
    else none
  ({ title := titleStr, subtitle := subtitle, accent := opts.accentColor,
     cards := renderedCards, chart := chartOut.1, images := placed,
     notes := notes },
   chartOut.2 ++ imgWarns)

/-- The generate-button handler (app.py lines 215-317): decide the slide
count, split cards and images positionally when two slides are used,
build the slide(s), and deliver the file (success is always reached). -/
def generateDeck (opts : Options) (cards : List Card)
    (screenshots : List Screenshot) (maxSlides : Nat)
    (chartCfg : Option ChartCfg) : GenResult :=
  let totalCards := cards.length
  let totalImgs := screenshots.length
  let twoSlides := use_two_slides totalCards totalImgs maxSlides
  let cardsPair := if twoSlides then split_cards cards else (cards, [])
  let imgsPair := if twoSlides then split_imgs screenshots else (screenshots, [])
  let first := build_slide opts opts.titleText cardsPair.1 imgsPair.1 chartCfg
  if twoSlides then
    let second :=
      build_slide opts (opts.titleText ++ " (cont.)") cardsPair.2 imgsPair.2 none
    { slides := [first.1, second.1], warnings := first.2 ++ second.2,
      success := true }
  else
    { slides := [first.1], warnings := first.2, success := true }

/-! ### CSV parsing model

`pd.read_csv` (app.py line 31) is an external library call whose code is
not in src/; the model below follows the spec's description of table
loading. -/

/-- Split a character list at every occurrence of `sep`; the result is
the list of (possibly empty) chunks between separators and is never
empty. -/
def splitCh (sep : Char) : List Char → List (List Char)
  | [] => [[]]
  | c :: cs =>
    if c = sep then
      [] :: splitCh sep cs
    else
      match splitCh sep cs with
      | [] => [[c]]
      | f :: rest => (c :: f) :: rest

/-- Join chunks with `sep` between consecutive chunks. -/
def joinCh (sep : Char) : List (List Char) → List Char
  | [] => []
  | [x] => x
  | x :: y :: ys => x ++ sep :: joinCh sep (y :: ys)

/-- A parsed comma-separated table: the named columns and the data rows,
each a list of cell fields. -/
structure CsvTable where
  columns : List (List Char)
  rows : List (List (List Char))
deriving DecidableEq, Repr

/-- Modelled from the spec: `pd.read_csv` (app.py line 31) is delegated
to an external spreadsheet library absent from src/.  Per the spec, a
comma-separated file "is parsed into a generic row/column table" of
"rows × named columns": the first line names the columns, each further
line is one data row, lines separated by newlines, cells by commas. -/
def read_csv (content : List Char) : CsvTable :=
  match splitCh '\n' content with
  | [] => { columns := [], rows := [] }
  | headerLine :: dataLines =>
    { columns := splitCh ',' headerLine
      rows := dataLines.map (splitCh ',') }

/-- The text of a comma-separated file with the given header fields and
data grid: one line per row, cells joined by commas, lines by newlines. -/
def serializeCsv (header : List (List Char)) (grid : List (List (List Char))) :
    List Char :=
  joinCh '\n' (joinCh ',' header :: grid.map (joinCh ','))

/-- A well-formed comma-separated file: at least one named column, every
data row as wide as the header, and no cell containing a comma or a
newline (no quoting or escaping in play). -/
def wellFormedCsv (header : List (List Char)) (grid : List (List (List Char))) :
    Prop :=
  header ≠ [] ∧
  (∀ f ∈ header, ',' ∉ f ∧ '\n' ∉ f) ∧
  (∀ r ∈ grid, r.length = header.length ∧ ∀ f ∈ r, ',' ∉ f ∧ '\n' ∉ f)

instance (header : List (List Char)) (grid : List (List (List Char))) :
    Decidable (wellFormedCsv header grid) := by
  unfold wellFormedCsv
  infer_instance

/-! ### Concrete example inputs -/

/-- Example option values (the sidebar defaults of app.py lines 146-153). -/
def exOpts : Options :=
  { titleText := "Executive KPI Summary", customer := "Acme",
    dateRange := "Last 3 months", purpose := "Quarterly EBR",
    accentColor := "#1768AC", includeSpeakerNotes := true,
    enableAutoCrop := true }

/-- The `n`-th example card. -/
def exCard (n : Nat) : Card :=
  { headline := "KPI " ++ toString n, value := toString n ++ "%", note := "" }

/-- A queue of `n` example cards, in order. -/
def exCards (n : Nat) : List Card :=
  (List.range n).map fun i => exCard (i + 1)

/-- A slide with nothing on it, used as a `getD` default. -/
def emptySlide : Slide :=
  { title := "", subtitle := "", accent := "", cards := [], chart := none,
    images := [], notes := none }

/-- An uploaded file that loads fine as a one-column, one-row table. -/
def exGoodCsv : DataFile :=
  { name := "a.csv", csvResult := Except.ok { columns := ["c"], rows := [["1"]] },
    excelResult := Except.error "not an excel file",
    jsonResult := Except.error "not a json file" }

/-- An uploaded `.csv` file whose parse raises. -/
def exBadCsv : DataFile :=
  { name := "kpi.csv", csvResult := Except.error "bad header",
    excelResult := Except.error "not an excel file",
    jsonResult := Except.error "not a json file" }

/-- An uploaded file with an unsupported extension. -/
def exBadExt : DataFile :=
  { name := "Notes.TXT", csvResult := Except.error "never reached",
    excelResult := Except.error "never reached",
    jsonResult := Except.error "never reached" }

/-- A chart mapping whose `add_chart` call raises. -/
def exFailChart : ChartCfg :=
  { x := "month", y := "rate", ctype := "bar", series := "rate",
    addResult := some "boom" }

/-- An uploaded screenshot whose decode raises. -/
def exBadImg : Screenshot :=
  { name := "shot.png", decode := some "truncated" }

/-- Example header fields for a well-formed comma-separated file. -/
def exHeader : List (List Char) :=
  [['k', 'p', 'i'], ['v', 'a', 'l']]

/-- Example data grid for a well-formed comma-separated file. -/
def exGrid : List (List (List Char)) :=
  [[['a'], ['1']], [['b'], ['2']]]

theorem splitCh_no_sep (sep : Char) (cs : List Char) (h : sep ∉ cs) :
    splitCh sep cs = [cs] := by
  induction cs with
  | nil => rfl
  | cons c cs ih =>
    simp only [List.mem_cons, not_or] at h
    have hcs : ¬ c = sep := fun h' => h.1 h'.symm
    simp only [splitCh, if_neg hcs, ih h.2]

theorem splitCh_sep_append (sep : Char) (x rest : List Char) (hx : sep ∉ x) :
    splitCh sep (x ++ sep :: rest) = x :: splitCh sep rest := by
  induction x with
  | nil => simp [splitCh]
  | cons c cs ih =>
    simp only [List.mem_cons, not_or] at hx
    have hcs : ¬ c = sep := fun h' => hx.1 h'.symm
    simp only [List.cons_append, splitCh, if_neg hcs, List.append_eq, ih hx.2]

theorem splitCh_joinCh (sep : Char) (xss : List (List Char)) (hne : xss ≠ [])
    (hfree : ∀ xs ∈ xss, sep ∉ xs) :
    splitCh sep (joinCh sep xss) = xss := by
  induction xss with
  | nil => exact absurd rfl hne
  | cons x xs ih =>
    cases xs with
    | nil =>
      simp only [joinCh]
      exact splitCh_no_sep sep x (hfree x (List.mem_cons_self x []))
    | cons y ys =>
      have hx : sep ∉ x := hfree x (List.mem_cons_self x (y :: ys))
      have hrest : ∀ z ∈ y :: ys, sep ∉ z := fun z hz =>
        hfree z (List.mem_cons_of_mem x hz)
      simp only [joinCh]
      rw [splitCh_sep_append sep x (joinCh sep (y :: ys)) hx,
        ih (List.cons_ne_nil y ys) hrest]

theorem not_mem_joinCh (sep c : Char) (xss : List (List Char)) (hc : c ≠ sep)
    (hfree : ∀ xs ∈ xss, c ∉ xs) : c ∉ joinCh sep xss := by
  induction xss with
  | nil => simp [joinCh]
  | cons x xs ih =>
    cases xs with
    | nil =>
      simp only [joinCh]
      exact hfree x (List.mem_cons_self x [])
    | cons y ys =>
      have hx : c ∉ x := hfree x (List.mem_cons_self x (y :: ys))
      have hrest : ∀ z ∈ y :: ys, c ∉ z := fun z hz =>
        hfree z (List.mem_cons_of_mem x hz)
      simp only [joinCh, List.mem_append, List.mem_cons, not_or]
      exact ⟨hx, hc, ih hrest⟩

/-! ### Structural lemmas about the generation handler -/

theorem use_two_slides_iff (a b m : Nat) :
    use_two_slides a b m = true ↔ 4 < a + b ∧ 2 ≤ m := by
  simp [use_two_slides]

theorem generateDeck_eq (opts : Options) (cards : List Card)
    (imgs : List Screenshot) (maxSlides : Nat) (cfg : Option ChartCfg) :
    generateDeck opts cards imgs maxSlides cfg =
      if use_two_slides cards.length imgs.length maxSlides then
        { slides := [(build_slide opts opts.titleText (split_cards cards).1
              (split_imgs imgs).1 cfg).1,
            (build_slide opts (opts.titleText ++ " (cont.)") (split_cards cards).2
              (split_imgs imgs).2 none).1],
          warnings := (build_slide opts opts.titleText (split_cards cards).1
              (split_imgs imgs).1 cfg).2 ++
            (build_slide opts (opts.titleText ++ " (cont.)") (split_cards cards).2
              (split_imgs imgs).2 none).2,
          success := true }
      else
        { slides := [(build_slide opts opts.titleText cards imgs cfg).1],
          warnings := (build_slide opts opts.titleText cards imgs cfg).2,
          success := true } := by
  cases h : use_two_slides cards.length imgs.length maxSlides <;>
    simp [generateDeck, h]

theorem build_slide_cards (o : Options) (t : String) (cs : List Card)
    (is : List Screenshot) (cfg : Option ChartCfg) :
    (build_slide o t cs is cfg).1.cards = cs.take 4 := rfl

theorem build_slide_images (o : Options) (t : String) (cs : List Card)
    (is : List Screenshot) (cfg : Option ChartCfg) :
    (build_slide o t cs is cfg).1.images =
      (is.take 1).filterMap fun s =>
        match s.decode with
        | none => some s.name
        | some _ => none := rfl

theorem build_slide_chart_some (o : Options) (t : String) (cs : List Card)
    (is : List Screenshot) (c : ChartCfg) :
    (build_slide o t cs is (some c)).1.chart =
      match c.addResult with
      | none => some ()
      | some _ => none := by
  rcases c with ⟨x, y, ct, se, ar⟩
  cases ar <;> rfl

theorem build_slide_chart_none (o : Options) (t : String) (cs : List Card)
    (is : List Screenshot) :
    (build_slide o t cs is none).1.chart = none := rfl

theorem build_slide_warns_some (o : Options) (t : String) (cs : List Card)
    (is : List Screenshot) (c : ChartCfg) :
    (build_slide o t cs is (some c)).2 =
      (match c.addResult with
       | none => []
       | some e => ["Chart could not be added: " ++ e]) ++
      (is.take 1).filterMap fun s =>
        (s.decode).map fun e => "Could not embed " ++ s.name ++ ": " ++ e := by
  rcases c with ⟨x, y, ct, se, ar⟩
  cases ar <;> rfl

theorem build_slide_warns_none (o : Options) (t : String) (cs : List Card)
    (is : List Screenshot) :
    (build_slide o t cs is none).2 =
      (is.take 1).filterMap fun s =>
        (s.decode).map fun e => "Could not embed " ++ s.name ++ ": " ++ e := rfl

theorem build_slide_cards_le (o : Options) (t : String) (cs : List Card)
    (is : List Screenshot) (cfg : Option ChartCfg) :
    (build_slide o t cs is cfg).1.cards.length ≤ 4 := by
  rw [build_slide_cards]
  exact List.length_take_le _ _

theorem build_slide_images_le (o : Options) (t : String) (cs : List Card)
    (is : List Screenshot) (cfg : Option ChartCfg) :
    (build_slide o t cs is cfg).1.images.length ≤ 1 := by
  rw [build_slide_images]
  exact le_trans (List.length_filterMap_le _ _) (List.length_take_le _ _)

/-! ### Claims -/

/-- C1: for every generation request, two slides are produced if and only
if the number of queued cards plus the number of uploaded images exceeds 4
and the user-selected max slide count allows two slides; otherwise exactly
one slide is produced. -/
theorem c1_two_slides_iff (opts : Options) (cards : List Card)
    (imgs : List Screenshot) (maxSlides : Nat) (cfg : Option ChartCfg) :
    ((generateDeck opts cards imgs maxSlides cfg).slides.length = 2 ↔
      4 < cards.length + imgs.length ∧ 2 ≤ maxSlides) ∧
    ((generateDeck opts cards imgs maxSlides cfg).slides.length = 1 ↔
      ¬(4 < cards.length + imgs.length ∧ 2 ≤ maxSlides)) := by
  have hiff := use_two_slides_iff cards.length imgs.length maxSlides
  rw [generateDeck_eq]
  cases h : use_two_slides cards.length imgs.length maxSlides
  · rw [h] at hiff
    simp only [Bool.false_eq_true, false_iff] at hiff
    simp [hiff]
  · rw [h] at hiff
    simp only [true_iff] at hiff
    simp [hiff]

/-- C2: queuing `N` cards and generating with max slide count 1 renders
exactly `min N 4` card visuals, all on a single slide; queued cards beyond
the fourth are silently dropped (the slide renders exactly the first four
cards of the queue). -/
theorem c2_max_one_slide (opts : Options) (cards : List Card)
    (imgs : List Screenshot) (cfg : Option ChartCfg) :
    (generateDeck opts cards imgs 1 cfg).slides.length = 1 ∧
    (generateDeck opts cards imgs 1 cfg).slides.map Slide.cards =
      [cards.take 4] ∧
    (cards.take 4).length = min cards.length 4 := by
  have h : use_two_slides cards.length imgs.length 1 = false := by
    simp [use_two_slides]
  rw [generateDeck_eq, h]
  simp [build_slide_cards, List.length_take, Nat.min_comm]

/-- C3: queuing exactly 6 cards (and no images) and generating with max
slide count 2 produces exactly two slides whose rendered card counts sum
to 6, each slide rendering at most 4 cards. -/
theorem c3_six_cards (opts : Options) (cards : List Card)
    (cfg : Option ChartCfg) (h6 : cards.length = 6) :
    (generateDeck opts cards [] 2 cfg).slides.length = 2 ∧
    ((generateDeck opts cards [] 2 cfg).slides.map fun s =>
      s.cards.length) = [4, 2] ∧
    ((generateDeck opts cards [] 2 cfg).slides.map fun s =>
      s.cards.length).sum = 6 ∧
    ∀ s ∈ (generateDeck opts cards [] 2 cfg).slides, s.cards.length ≤ 4 := by
  have h : use_two_slides cards.length (List.length ([] : List Screenshot)) 2
      = true := by
    rw [h6]
    decide
  rw [generateDeck_eq, h]
  have hmap : ((build_slide opts opts.titleText (split_cards cards).1
        (split_imgs []).1 cfg).1.cards.length = 4) ∧
      ((build_slide opts (opts.titleText ++ " (cont.)") (split_cards cards).2
        (split_imgs []).2 none).1.cards.length = 2) := by
    rw [build_slide_cards, build_slide_cards]
    simp only [split_cards, half_cards, List.length_take, List.length_drop, h6]
    omega
  refine ⟨rfl, ?_, ?_, ?_⟩
  · simp [hmap.1, hmap.2]
  · simp [hmap.1, hmap.2]
  · intro s hs
    simp only [if_true, List.mem_cons, List.not_mem_nil, or_false] at hs
    rcases hs with hs | hs <;> subst hs <;> apply build_slide_cards_le

/-- Witness for C3 at a concrete input: six example cards.  -/
theorem c3_witness :
    (exCards 6).length = 6 ∧
    (generateDeck exOpts (exCards 6) [] 2 none).slides.length = 2 ∧
    ((generateDeck exOpts (exCards 6) [] 2 none).slides.map fun s =>
      s.cards.length).sum = 6 :=
  ⟨by decide, (c3_six_cards exOpts (exCards 6) none (by decide)).1,
    (c3_six_cards exOpts (exCards 6) none (by decide)).2.2.1⟩

/-- C4 counterexample: five queued cards and no images produce two slides,
but the positional split gives the first slide four cards and the second
slide one card — the parts' sizes differ by three, not by at most one. -/
theorem c4_counterexample :
    (generateDeck exOpts (exCards 5) [] 2 none).slides.length = 2 ∧
    (split_cards (exCards 5)).1.length = 4 ∧
    (split_cards (exCards 5)).2.length = 1 ∧
    ¬((split_cards (exCards 5)).1.length - (split_cards (exCards 5)).2.length
      ≤ 1) := by
  decide

/-- C4 (amended): whenever two slides are produced, cards and images are
split by positional slicing — the first slide receives a prefix and the
second the remaining suffix.  The image parts' sizes differ by at most
one, but the first card part has size `min N (max 4 ((N+1)/2))`, which can
exceed the second card part's size by more than one. -/
theorem c4_amended_split (cards : List Card) (imgs : List Screenshot)
    (maxSlides : Nat)
    (h : use_two_slides cards.length imgs.length maxSlides = true) :
    (∀ opts cfg,
      (generateDeck opts cards imgs maxSlides cfg).slides.length = 2 ∧
      (generateDeck opts cards imgs maxSlides cfg).slides.map Slide.cards =
        [(split_cards cards).1.take 4, (split_cards cards).2.take 4]) ∧
    (split_cards cards).1 ++ (split_cards cards).2 = cards ∧
    (split_cards cards).1 = cards.take (half_cards cards.length) ∧
    (split_cards cards).1.length = min (half_cards cards.length) cards.length ∧
    (split_imgs imgs).1 ++ (split_imgs imgs).2 = imgs ∧
    (split_imgs imgs).2.length ≤ (split_imgs imgs).1.length ∧
    (split_imgs imgs).1.length ≤ (split_imgs imgs).2.length + 1 := by
  refine ⟨?_, ?_, rfl, ?_, ?_, ?_, ?_⟩
  · intro opts cfg
    rw [generateDeck_eq]
    simp only [h, if_true]
    exact ⟨rfl, by simp [build_slide_cards]⟩
  · exact List.take_append_drop _ _
  · simp [split_cards, List.length_take]
  · exact List.take_append_drop _ _
  · simp only [split_imgs, half_imgs, List.length_take, List.length_drop]
    omega
  · simp only [split_imgs, half_imgs, List.length_take, List.length_drop]
    omega

/-- Witness for the amended C4 at a concrete input: seven example cards
and no images, with two slides allowed. -/
theorem c4_witness :
    use_two_slides (exCards 7).length
      (List.length ([] : List Screenshot)) 2 = true ∧
    (split_cards (exCards 7)).1 ++ (split_cards (exCards 7)).2 = exCards 7 :=
  ⟨by decide, (c4_amended_split (exCards 7) [] 2 (by decide)).2.1⟩

/-- C10 counterexample: with ten queued cards and two slides allowed, the
rendered cards are queue positions 1-4 and 6-9; the tenth card — the very
end of the queue — is silently dropped, although the claim locates all
dropped cards in positions 5 through `max 4 ((10+1)/2) = 5` and asserts
none is dropped from the end. -/
theorem c10_counterexample :
    (generateDeck exOpts (exCards 10) [] 2 none).slides.map Slide.cards =
      [[exCard 1, exCard 2, exCard 3, exCard 4],
       [exCard 6, exCard 7, exCard 8, exCard 9]] ∧
    (exCards 10).getLast? = some (exCard 10) ∧
    exCard 10 ∉
      ((generateDeck exOpts (exCards 10) [] 2 none).slides.map Slide.cards).flatten ∧
    max 4 ((10 + 1) / 2) = 5 ∧ ¬((10 : Nat) ≤ 5) := by
  decide

/-- C10 (amended): at most 8 cards are rendered in the whole deck; when
more than 8 cards are queued and two slides are allowed, the rendered
cards are exactly queue positions 1-4 together with positions
`(N+1)/2 + 1` through `(N+1)/2 + 4`, so the dropped cards are the middle
positions 5 through `(N+1)/2` and also — whenever N ≥ 10 — the end
positions `(N+1)/2 + 5` through N. -/
theorem c10_amended_drops (opts : Options) (cards : List Card)
    (imgs : List Screenshot) (maxSlides : Nat) (cfg : Option ChartCfg) :
    ((generateDeck opts cards imgs maxSlides cfg).slides.map
      Slide.cards).flatten.length ≤ 8 ∧
    (8 < cards.length → 2 ≤ maxSlides →
      ((generateDeck opts cards imgs maxSlides cfg).slides.map
        Slide.cards).flatten =
        cards.take 4 ++ (cards.drop ((cards.length + 1) / 2)).take 4) := by
  constructor
  · rw [generateDeck_eq]
    cases h : use_two_slides cards.length imgs.length maxSlides
    · simp only [Bool.false_eq_true, if_false, List.map_cons, List.map_nil,
        List.flatten_cons, List.flatten_nil, List.append_nil, build_slide_cards]
      exact le_trans (List.length_take_le _ _) (by omega)
    · simp only [if_true, List.map_cons, List.map_nil, List.flatten_cons,
        List.flatten_nil, List.append_nil, build_slide_cards, List.length_append]
      have h1 := List.length_take_le 4 (split_cards cards).1
      have h2 := List.length_take_le 4 (split_cards cards).2
      omega
  · intro h8 hm
    have h : use_two_slides cards.length imgs.length maxSlides = true := by
      rw [use_two_slides_iff]
      omega
    rw [generateDeck_eq]
    simp only [h, if_true, List.map_cons, List.map_nil, List.flatten_cons,
      List.flatten_nil, List.append_nil, build_slide_cards, split_cards]
    have hhalf : half_cards cards.length = (cards.length + 1) / 2 := by
      unfold half_cards
      omega
    rw [hhalf, List.take_take]
    have hmin : min 4 ((cards.length + 1) / 2) = 4 := by omega
    rw [hmin]

/-- Witness for the amended C10 at a concrete input: nine example cards
with two slides allowed. -/
theorem c10_witness :
    8 < (exCards 9).length ∧ (2 : Nat) ≤ 2 ∧
    ((generateDeck exOpts (exCards 9) [] 2 none).slides.map
      Slide.cards).flatten =
      (exCards 9).take 4 ++
        ((exCards 9).drop (((exCards 9).length + 1) / 2)).take 4 :=
  ⟨by decide, by decide,
    (c10_amended_drops exOpts (exCards 9) [] 2 none).2 (by decide) (by decide)⟩

/-- C5: every generated slide renders at most 4 card visuals and at most
one image, by slice truncation of the subsets passed to the slide
builder. -/
theorem c5_per_slide_caps (opts : Options) (cards : List Card)
    (imgs : List Screenshot) (maxSlides : Nat) (cfg : Option ChartCfg) :
    ∀ s ∈ (generateDeck opts cards imgs maxSlides cfg).slides,
      s.cards.length ≤ 4 ∧ s.images.length ≤ 1 := by
  intro s hs
  rw [generateDeck_eq] at hs
  split at hs <;>
    simp only [List.mem_cons, List.not_mem_nil, or_false] at hs
  · rcases hs with hs | hs <;> subst hs <;>
      exact ⟨build_slide_cards_le _ _ _ _ _, build_slide_images_le _ _ _ _ _⟩
  · subst hs
    exact ⟨build_slide_cards_le _ _ _ _ _, build_slide_images_le _ _ _ _ _⟩

/-- Witness for C5 at a concrete input: the first slide of a deck built
from five queued cards obeys both per-slide caps. -/
theorem c5_witness :
    (((generateDeck exOpts (exCards 5) [] 2 none).slides.getD 0
      emptySlide).cards.length ≤ 4) ∧
    (((generateDeck exOpts (exCards 5) [] 2 none).slides.getD 0
      emptySlide).images.length ≤ 1) :=
  c5_per_slide_caps exOpts (exCards 5) [] 2 none _ (by decide)

/-! ### Lemmas about the table loader and failure handling -/

theorem load_table_none_warning (f : DataFile)
    (h : (load_table f).1 = none) : (load_table f).2 ≠ [] := by
  simp only [load_table] at h ⊢
  split_ifs at h ⊢
  · revert h
    cases f.csvResult <;> simp
  · revert h
    cases f.excelResult <;> simp
  · revert h
    cases f.jsonResult <;> simp
  · simp

theorem load_table_unsupported (f : DataFile)
    (h1 : endsWithChars ".csv".data (lowerChars f.name) = false)
    (h2 : endsWithChars ".xlsx".data (lowerChars f.name) = false)
    (h3 : endsWithChars ".xls".data (lowerChars f.name) = false)
    (h4 : endsWithChars ".json".data (lowerChars f.name) = false) :
    load_table f = (none, ["Unsupported table file: " ++ f.name]) := by
  unfold load_table
  simp [h1, h2, h3, h4]

theorem loadTables_append (l1 l2 : List DataFile) :
    loadTables (l1 ++ l2) =
      ((loadTables l1).1 ++ (loadTables l2).1,
       (loadTables l1).2 ++ (loadTables l2).2) := by
  induction l1 with
  | nil => simp [loadTables]
  | cons f fs ih =>
    simp only [List.cons_append, loadTables, List.append_eq]
    rw [ih]
    cases (load_table f).1 <;> simp

theorem loadTables_skip (l1 l2 : List DataFile) (f : DataFile)
    (hf : (load_table f).1 = none) :
    (loadTables (l1 ++ f :: l2)).1 = (loadTables (l1 ++ l2)).1 := by
  rw [loadTables_append, loadTables_append]
  simp [loadTables, hf]

theorem build_slide_images_nil (o : Options) (t : String) (cs : List Card)
    (is : List Screenshot) (cfg : Option ChartCfg)
    (h : ∀ s ∈ is, s.decode ≠ none) :
    (build_slide o t cs is cfg).1.images = [] := by
  rw [build_slide_images, List.filterMap_eq_nil_iff]
  intro s hs
  have hd := h s (List.take_subset _ _ hs)
  cases hds : s.decode with
  | none => exact absurd hds hd
  | some e => simp [hds]

theorem build_slide_img_warn (o : Options) (t : String) (cs : List Card)
    (rest : List Screenshot) (cfg : Option ChartCfg) (s0 : Screenshot)
    (e2 : String) (hd : s0.decode = some e2) :
    ("Could not embed " ++ s0.name ++ ": " ++ e2) ∈
      (build_slide o t cs (s0 :: rest) cfg).2 := by
  cases cfg with
  | none =>
    rw [build_slide_warns_none]
    simp [hd]
  | some c =>
    rw [build_slide_warns_some]
    simp [hd]

theorem split_imgs_cons_fst (s0 : Screenshot) (rest : List Screenshot) :
    (split_imgs (s0 :: rest)).1 =
      s0 :: rest.take (half_imgs (s0 :: rest).length - 1) := by
  obtain ⟨k, hk⟩ : ∃ k, half_imgs (s0 :: rest).length = k + 1 := by
    have h1 : 1 ≤ half_imgs (s0 :: rest).length := by
      unfold half_imgs
      omega
    exact ⟨half_imgs (s0 :: rest).length - 1, by omega⟩
  simp only [split_imgs, hk, List.take_succ_cons, Nat.add_sub_cancel]

theorem generateDeck_chart_warn (opts : Options) (cards : List Card)
    (imgs : List Screenshot) (maxSlides : Nat) (c : ChartCfg) (e : String)
    (hc : c.addResult = some e) :
    ("Chart could not be added: " ++ e) ∈
      (generateDeck opts cards imgs maxSlides (some c)).warnings := by
  rw [generateDeck_eq]
  cases h : use_two_slides cards.length imgs.length maxSlides <;>
    simp [build_slide_warns_some, hc]

theorem generateDeck_chart_skipped (opts : Options) (cards : List Card)
    (imgs : List Screenshot) (maxSlides : Nat) (c : ChartCfg) (e : String)
    (hc : c.addResult = some e) :
    ∀ s ∈ (generateDeck opts cards imgs maxSlides (some c)).slides,
      s.chart = none := by
  intro s hs
  rw [generateDeck_eq] at hs
  split at hs <;>
    simp only [List.mem_cons, List.not_mem_nil, or_false] at hs
  · rcases hs with hs | hs <;> subst hs
    · rw [build_slide_chart_some, hc]
    · exact build_slide_chart_none _ _ _ _
  · subst hs
    rw [build_slide_chart_some, hc]

theorem generateDeck_cards_indep_chart (opts : Options) (cards : List Card)
    (imgs : List Screenshot) (maxSlides : Nat) (c : ChartCfg) :
    (generateDeck opts cards imgs maxSlides (some c)).slides.map Slide.cards =
      (generateDeck opts cards imgs maxSlides none).slides.map Slide.cards := by
  rw [generateDeck_eq, generateDeck_eq]
  cases h : use_two_slides cards.length imgs.length maxSlides <;>
    simp [build_slide_cards]

theorem generateDeck_imgs_skipped (opts : Options) (cards : List Card)
    (imgs : List Screenshot) (maxSlides : Nat) (cfg : Option ChartCfg)
    (himg : ∀ s ∈ imgs, s.decode ≠ none) :
    ∀ s ∈ (generateDeck opts cards imgs maxSlides cfg).slides,
      s.images = [] := by
  intro s hs
  rw [generateDeck_eq] at hs
  split at hs <;>
    simp only [List.mem_cons, List.not_mem_nil, or_false] at hs
  · rcases hs with hs | hs <;> subst hs
    · refine build_slide_images_nil _ _ _ _ _ fun x hx => himg x ?_
      simp only [split_imgs] at hx
      exact List.take_subset _ _ hx
    · refine build_slide_images_nil _ _ _ _ _ fun x hx => himg x ?_
      simp only [split_imgs] at hx
      exact List.drop_subset _ _ hx
  · subst hs
    exact build_slide_images_nil _ _ _ _ _ himg

theorem generateDeck_first_img_warn (opts : Options) (cards : List Card)
    (maxSlides : Nat) (cfg : Option ChartCfg) (s0 : Screenshot)
    (rest : List Screenshot) (e2 : String) (hd : s0.decode = some e2) :
    ("Could not embed " ++ s0.name ++ ": " ++ e2) ∈
      (generateDeck opts cards (s0 :: rest) maxSlides cfg).warnings := by
  rw [generateDeck_eq]
  cases h : use_two_slides cards.length (s0 :: rest).length maxSlides
  · simp only [Bool.false_eq_true, if_false]
    exact build_slide_img_warn _ _ _ _ _ _ _ hd
  · simp only [if_true]
    apply List.mem_append_left
    rw [split_imgs_cons_fst]
    exact build_slide_img_warn _ _ _ _ _ _ _ hd

/-- C6: every failure among table parsing, chart construction and image
embedding is caught at its point of use: the failed item yields a warning
and is skipped, the remaining items are unaffected, and generation still
produces an output deck — no such failure aborts the request. -/
theorem c6_failures_nonfatal (l1 l2 : List DataFile) (f : DataFile)
    (opts : Options) (cards : List Card) (imgs : List Screenshot)
    (maxSlides : Nat) (c : ChartCfg) (e : String)
    (hf : (load_table f).1 = none)
    (hc : c.addResult = some e)
    (himg : ∀ s ∈ imgs, s.decode ≠ none) :
    (load_table f).2 ≠ [] ∧
    (loadTables (l1 ++ f :: l2)).1 = (loadTables (l1 ++ l2)).1 ∧
    (generateDeck opts cards imgs maxSlides (some c)).success = true ∧
    (generateDeck opts cards imgs maxSlides (some c)).slides ≠ [] ∧
    ("Chart could not be added: " ++ e) ∈
      (generateDeck opts cards imgs maxSlides (some c)).warnings ∧
    (∀ s ∈ (generateDeck opts cards imgs maxSlides (some c)).slides,
      s.chart = none) ∧
    (generateDeck opts cards imgs maxSlides (some c)).slides.map Slide.cards =
      (generateDeck opts cards imgs maxSlides none).slides.map Slide.cards ∧
    (∀ s ∈ (generateDeck opts cards imgs maxSlides (some c)).slides,
      s.images = []) ∧
    (∀ s0 rest, imgs = s0 :: rest → ∃ e2, s0.decode = some e2 ∧
      ("Could not embed " ++ s0.name ++ ": " ++ e2) ∈
        (generateDeck opts cards imgs maxSlides (some c)).warnings) := by
  refine ⟨load_table_none_warning f hf, loadTables_skip l1 l2 f hf, ?_, ?_,
    generateDeck_chart_warn opts cards imgs maxSlides c e hc,
    generateDeck_chart_skipped opts cards imgs maxSlides c e hc,
    generateDeck_cards_indep_chart opts cards imgs maxSlides c,
    generateDeck_imgs_skipped opts cards imgs maxSlides (some c) himg,
    ?_⟩
  · rw [generateDeck_eq]
    cases h : use_two_slides cards.length imgs.length maxSlides <;> simp
  · rw [generateDeck_eq]
    cases h : use_two_slides cards.length imgs.length maxSlides <;> simp
  · intro s0 rest hrest
    have hd : ∃ e2, s0.decode = some e2 := by
      have := himg s0 (by rw [hrest]; exact List.mem_cons_self s0 rest)
      cases hds : s0.decode with
      | none => exact absurd hds this
      | some e2 => exact ⟨e2, rfl⟩
    obtain ⟨e2, he2⟩ := hd
    subst hrest
    exact ⟨e2, he2,
      generateDeck_first_img_warn opts cards maxSlides (some c) s0 rest e2 he2⟩

/-- C7: an uploaded file whose lower-cased name ends in none of `.csv`,
`.xlsx`, `.xls`, `.json` yields no table and the "Unsupported table file"
warning, and this has no effect on the other uploaded files: removing it
from the upload list leaves the loaded tables unchanged. -/
theorem c7_unsupported_extension (l1 l2 : List DataFile) (f : DataFile)
    (h1 : endsWithChars ".csv".data (lowerChars f.name) = false)
    (h2 : endsWithChars ".xlsx".data (lowerChars f.name) = false)
    (h3 : endsWithChars ".xls".data (lowerChars f.name) = false)
    (h4 : endsWithChars ".json".data (lowerChars f.name) = false) :
    load_table f = (none, ["Unsupported table file: " ++ f.name]) ∧
    (loadTables (l1 ++ f :: l2)).1 = (loadTables (l1 ++ l2)).1 := by
  have hu := load_table_unsupported f h1 h2 h3 h4
  exact ⟨hu, loadTables_skip l1 l2 f (by rw [hu])⟩

/-- Witness for C6 at concrete inputs: a csv file whose parse raises, a
chart whose construction raises, and a screenshot whose decode raises. -/
theorem c6_witness :
    (load_table exBadCsv).1 = none ∧
    exFailChart.addResult = some "boom" ∧
    exBadImg.decode = some "truncated" ∧
    ("Chart could not be added: " ++ "boom") ∈
      (generateDeck exOpts (exCards 2) [exBadImg] 2
        (some exFailChart)).warnings ∧
    (loadTables [exBadCsv, exGoodCsv]).1 = (loadTables [exGoodCsv]).1 := by
  have h := c6_failures_nonfatal [] [exGoodCsv] exBadCsv exOpts (exCards 2)
    [exBadImg] 2 exFailChart "boom" (by decide) (by decide) (by decide)
  exact ⟨by decide, by decide, by decide, h.2.2.2.2.1, h.2.1⟩

/-- Witness for C7 at concrete inputs: a `.TXT` upload between two loads. -/
theorem c7_witness :
    endsWithChars ".csv".data (lowerChars exBadExt.name) = false ∧
    load_table exBadExt =
      (none, ["Unsupported table file: " ++ exBadExt.name]) ∧
    (loadTables [exGoodCsv, exBadExt, exGoodCsv]).1 =
      (loadTables [exGoodCsv, exGoodCsv]).1 := by
  have h := c7_unsupported_extension [exGoodCsv] [exGoodCsv] exBadExt
    (by decide) (by decide) (by decide) (by decide)
  exact ⟨by decide, h.1, h.2⟩

/-- C8: loading a well-formed comma-separated file yields a table with
exactly the file's data rows under the file's named columns: the row and
column counts of the table equal those of the input file. -/
theorem c8_csv_shape (header : List (List Char))
    (grid : List (List (List Char))) (hwf : wellFormedCsv header grid) :
    (read_csv (serializeCsv header grid)).columns = header ∧
    (read_csv (serializeCsv header grid)).rows = grid ∧
    (read_csv (serializeCsv header grid)).rows.length = grid.length ∧
    (read_csv (serializeCsv header grid)).columns.length = header.length ∧
    ∀ r ∈ (read_csv (serializeCsv header grid)).rows,
      r.length = header.length := by
  obtain ⟨hne, hhead, hrows⟩ := hwf
  have hlines : splitCh '\n' (serializeCsv header grid) =
      joinCh ',' header :: grid.map (joinCh ',') := by
    apply splitCh_joinCh
    · exact List.cons_ne_nil _ _
    · intro xs hxs
      rcases List.mem_cons.mp hxs with hx | hx
      · subst hx
        exact not_mem_joinCh ',' '\n' header (by decide)
          fun g hg => (hhead g hg).2
      · obtain ⟨r, hr, rfl⟩ := List.mem_map.mp hx
        exact not_mem_joinCh ',' '\n' r (by decide)
          fun g hg => ((hrows r hr).2 g hg).2
  have hcols : splitCh ',' (joinCh ',' header) = header :=
    splitCh_joinCh ',' header hne fun g hg => (hhead g hg).1
  have hrow : ∀ r ∈ grid, splitCh ',' (joinCh ',' r) = r := by
    intro r hr
    have hlen := (hrows r hr).1
    apply splitCh_joinCh
    · intro h0
      rw [h0] at hlen
      exact hne (List.length_eq_zero.mp hlen.symm)
    · exact fun g hg => ((hrows r hr).2 g hg).1
  have hread : read_csv (serializeCsv header grid) =
      { columns := header, rows := grid } := by
    unfold read_csv
    rw [hlines]
    simp only [CsvTable.mk.injEq]
    refine ⟨hcols, ?_⟩
    rw [List.map_map]
    calc grid.map (splitCh ',' ∘ joinCh ',')
        = grid.map id := List.map_congr_left fun r hr => hrow r hr
      _ = grid := List.map_id grid
  rw [hread]
  exact ⟨rfl, rfl, rfl, rfl, fun r hr => (hrows r hr).1⟩

/-- Witness for C8 at a concrete input: a two-column, two-row file. -/
theorem c8_witness :
    wellFormedCsv exHeader exGrid ∧
    (read_csv (serializeCsv exHeader exGrid)).rows.length = exGrid.length ∧
    (read_csv (serializeCsv exHeader exGrid)).columns.length =
      exHeader.length :=
  ⟨by decide, (c8_csv_shape exHeader exGrid (by decide)).2.2.1,
    (c8_csv_shape exHeader exGrid (by decide)).2.2.2.1⟩

/-- C9: the auto-crop toggle has no effect on generation: two runs with
identical inputs differing only in the auto-crop option produce identical
output (the option is declared but never read by the generation logic). -/
theorem c9_auto_crop_unused (opts : Options) (b : Bool) (cards : List Card)
    (imgs : List Screenshot) (maxSlides : Nat) (cfg : Option ChartCfg) :
    generateDeck { opts with enableAutoCrop := b } cards imgs maxSlides cfg =
      generateDeck opts cards imgs maxSlides cfg := rfl

end DeckGen
